import Mathlib

/-!
Shallow embedding of the client-side filtering / faceting / CSV-export engine
of the announcement dashboard (source: src/app/page.tsx), together with the
small local-state update functions (check-toggle, contact save, fetch handlers,
scrape-job monitor), and proofs of the specification claims about them.

Strings are modelled with Lean `String`; JavaScript `toLowerCase`,
`includes`, `split`, `trim` and the single-character regex replace are
embedded as executable character-list functions with the same semantics on
the inputs that occur here.
-/

/-- Lower-cases ASCII letters, models JS `toLowerCase` on the ASCII range. -/
def lowerStr (s : String) : String :=
  String.mk (s.data.map Char.toLower)

/-- Does the first list start with the second?  Helper for substring search. -/
def startsWithL : List Char → List Char → Bool
  | _, [] => true
  | [], _ :: _ => false
  | c :: cs, d :: ds => c == d && startsWithL cs ds

/-- Does `s` contain `pat` as a contiguous run?  Models JS `String.includes`. -/
def containsL : List Char → List Char → Bool
  | [], pat => pat.isEmpty
  | c :: cs, pat => startsWithL (c :: cs) pat || containsL cs pat

/-- JS `haystack.includes(needle)` on strings. -/
def strIncludes (haystack needle : String) : Bool :=
  containsL haystack.data needle.data

/-- Splits a character list at every occurrence of `sep`; the accumulator holds
the current segment reversed.  Models JS `String.split` with a one-character
separator (so `"".split(sep) = [""]`). -/
def splitCharAux (sep : Char) : List Char → List Char → List (List Char)
  | [], acc => [acc.reverse]
  | c :: cs, acc =>
      if c == sep then acc.reverse :: splitCharAux sep cs []
      else splitCharAux sep cs (c :: acc)

/-- JS `s.split(sep)` for a one-character separator. -/
def splitOnChar (sep : Char) (s : String) : List String :=
  (splitCharAux sep s.data []).map String.mk

/-- ASCII whitespace test used by the embedded `trim`. -/
def isWs (c : Char) : Bool :=
  c == ' ' || c == '\t' || c == '\n' || c == '\r'

/-- Models JS `String.trim`: drop whitespace from both ends. -/
def trimStr (s : String) : String :=
  String.mk (((s.data.dropWhile isWs).reverse.dropWhile isWs).reverse)

/-- Accumulates the decimal value of a digit string. -/
def digitsVal (s : String) : Nat :=
  s.data.foldl (fun n c => n * 10 + (c.toNat - 48)) 0

/-- Are all characters decimal digits? -/
def allDigits (s : String) : Bool :=
  s.data.all (fun c => c.isDigit)

/-- Models `new Date(s)` on ISO calendar-date strings `YYYY-MM-DD` as an
order-preserving ordinal `y*10000 + m*100 + d`; `none` models an invalid date
(`NaN` timestamp), whose JS `>=` / `<=` comparisons are always false. -/
def parseDate (s : String) : Option Nat :=
  match splitOnChar '-' s with
  | [y, m, d] =>
      if !(y == "") && !(m == "") && !(d == "") &&
          allDigits y && allDigits m && allDigits d then
        some (digitsVal y * 10000 + digitsVal m * 100 + digitsVal d)
      else none
  | _ => none

/-- The `Announcement` record interface of src/app/page.tsx.  The eight
optional contact sub-fields are `Option String` (`none` models `undefined`). -/
structure Announcement where
  id : Nat
  member_id : String
  company_name : String
  announcement_title : String
  description : String
  products : String
  location : String
  announcement_type : String
  announcement_date : String
  announcement_url : String
  scraped_date : String
  checked : Nat
  created_at : String
  prenom : Option String
  adresse : Option String
  cod_postal : Option String
  ville : Option String
  mail : Option String
  tel : Option String
  web_site : Option String
  ok : Option String
deriving DecidableEq, Repr

/-- The filter-criteria state fields of the page (useState hooks). -/
structure Criteria where
  searchTerm : String
  filterType : String
  filterLocation : String
  filterProduct : String
  filterStatus : String
  filterDateFrom : String
  filterDateTo : String
  filterCompany : String
deriving DecidableEq, Repr

/-- The default criteria set by the useState initialisers / `clearAllFilters`. -/
def defaultCriteria : Criteria :=
  ⟨"", "all", "all", "all", "all", "", "", ""⟩

/-- Search sub-predicate: empty term matches all, else case-insensitive
substring match on title, description, location, products or company name. -/
def matchesSearch (c : Criteria) (a : Announcement) : Bool :=
  c.searchTerm == "" ||
  strIncludes (lowerStr a.announcement_title) (lowerStr c.searchTerm) ||
  strIncludes (lowerStr a.description) (lowerStr c.searchTerm) ||
  strIncludes (lowerStr a.location) (lowerStr c.searchTerm) ||
  strIncludes (lowerStr a.products) (lowerStr c.searchTerm) ||
  strIncludes (lowerStr a.company_name) (lowerStr c.searchTerm)

/-- Type sub-predicate: `all` matches all, else exact equality. -/
def matchesType (c : Criteria) (a : Announcement) : Bool :=
  c.filterType == "all" || a.announcement_type == c.filterType

/-- Location sub-predicate: `all` matches all, else exact equality. -/
def matchesLocation (c : Criteria) (a : Announcement) : Bool :=
  c.filterLocation == "all" || a.location == c.filterLocation

/-- Product sub-predicate: `all` matches all, else case-insensitive substring
match against the raw products string. -/
def matchesProduct (c : Criteria) (a : Announcement) : Bool :=
  c.filterProduct == "all" ||
  strIncludes (lowerStr a.products) (lowerStr c.filterProduct)

/-- Status sub-predicate: `all`, or `checked` with checked = 1, or
`unchecked` with checked = 0. -/
def matchesStatus (c : Criteria) (a : Announcement) : Bool :=
  c.filterStatus == "all" ||
  (c.filterStatus == "checked" && a.checked == 1) ||
  (c.filterStatus == "unchecked" && a.checked == 0)

/-- Date-from sub-predicate: empty bound matches all; otherwise both dates
must parse and the record's date be `≥` the bound (JS `NaN` comparisons are
false, modelled by the `none` fall-through). -/
def matchesDateFrom (c : Criteria) (a : Announcement) : Bool :=
  c.filterDateFrom == "" ||
  match parseDate a.announcement_date, parseDate c.filterDateFrom with
  | some d, some f => decide (f ≤ d)
  | _, _ => false

/-- Date-to sub-predicate: empty bound matches all; otherwise both dates must
parse and the record's date be `≤` the bound. -/
def matchesDateTo (c : Criteria) (a : Announcement) : Bool :=
  c.filterDateTo == "" ||
  match parseDate a.announcement_date, parseDate c.filterDateTo with
  | some d, some t => decide (d ≤ t)
  | _, _ => false

/-- Company sub-predicate: empty matches all, else case-insensitive substring
match against the company name. -/
def matchesCompany (c : Criteria) (a : Announcement) : Bool :=
  c.filterCompany == "" ||
  strIncludes (lowerStr a.company_name) (lowerStr c.filterCompany)

/-- The conjunction returned by the filter callback in `filteredAnnouncements`. -/
def announcementMatches (c : Criteria) (a : Announcement) : Bool :=
  matchesSearch c a && matchesType c a && matchesLocation c a &&
  matchesProduct c a && matchesStatus c a && matchesDateFrom c a &&
  matchesDateTo c a && matchesCompany c a

/-- `filteredAnnouncements` on an array store. -/
def filteredAnnouncements (store : List Announcement) (c : Criteria) :
    List Announcement :=
  store.filter (announcementMatches c)

/-- `filteredAnnouncements` including the `Array.isArray` guard: `none`
models a non-array `announcements` value, which yields `[]`. -/
def filteredValue (store : Option (List Announcement)) (c : Criteria) :
    List Announcement :=
  match store with
  | some l => filteredAnnouncements l c
  | none => []

/-- C1: a record appears in the Filtered View iff it is in the store and
satisfies all eight sub-predicates conjunctively, and the Filtered View is a
sublist (subsequence) of the store, preserving relative order. -/
theorem filteredAnnouncements_mem_iff_and_sublist :
    ∀ (store : List Announcement) (c : Criteria) (a : Announcement),
    (a ∈ filteredAnnouncements store c ↔
      a ∈ store ∧
      (matchesSearch c a = true ∧ matchesType c a = true ∧
       matchesLocation c a = true ∧ matchesProduct c a = true ∧
       matchesStatus c a = true ∧ matchesDateFrom c a = true ∧
       matchesDateTo c a = true ∧ matchesCompany c a = true)) ∧
    List.Sublist (filteredAnnouncements store c) store := by
  intro store c a
  constructor
  · rw [filteredAnnouncements, List.mem_filter]
    simp only [announcementMatches, Bool.and_eq_true, and_assoc]
  · exact List.filter_sublist store

/-- C5: with all criteria at their defaults the Filtered View is the whole
store in order; the empty store and a non-array store both yield `[]`. -/
theorem filteredValue_defaults_and_empty :
    (∀ store : List Announcement,
      filteredValue (some store) defaultCriteria = store) ∧
    (∀ c : Criteria,
      filteredValue (some []) c = [] ∧ filteredValue none c = []) := by
  constructor
  · intro store
    show filteredAnnouncements store defaultCriteria = store
    rw [filteredAnnouncements, List.filter_eq_self]
    intro a _
    simp [announcementMatches, matchesSearch, matchesType, matchesLocation,
      matchesProduct, matchesStatus, matchesDateFrom, matchesDateTo,
      matchesCompany, defaultCriteria]
  · intro c
    exact ⟨rfl, rfl⟩

/-- Scenario-E criteria: defaults with dateFrom 2024-01-01 and dateTo
2024-01-31. -/
def scenarioECriteria : Criteria :=
  { defaultCriteria with
      filterDateFrom := "2024-01-01", filterDateTo := "2024-01-31" }

/-- A concrete record dated 2024-01-15 (scenario A / E shape). -/
def annJan15 : Announcement :=
  { id := 1, member_id := "m1", company_name := "Acme",
    announcement_title := "Vente fruits", description := "desc",
    products := "Fruits, Bio", location := "alger",
    announcement_type := "Offre", announcement_date := "2024-01-15",
    announcement_url := "http://e/1", scraped_date := "2024-01-16",
    checked := 1, created_at := "2024-01-16",
    prenom := none, adresse := none, cod_postal := none, ville := none,
    mail := none, tel := none, web_site := none, ok := none }

/-- A concrete record dated 2024-02-01. -/
def annFeb01 : Announcement :=
  { annJan15 with id := 2, announcement_date := "2024-02-01" }

/-- C6: with non-empty bounds the date sub-predicates are inclusive
comparisons of the parsed dates, and in scenario E a record dated 2024-02-01
is excluded while one dated 2024-01-15 is included. -/
theorem dateFilters_inclusive_and_scenarioE :
    (∀ (c : Criteria) (a : Announcement) (d f : Nat),
      c.filterDateFrom ≠ "" →
      parseDate a.announcement_date = some d →
      parseDate c.filterDateFrom = some f →
      (matchesDateFrom c a = true ↔ f ≤ d)) ∧
    (∀ (c : Criteria) (a : Announcement) (d t : Nat),
      c.filterDateTo ≠ "" →
      parseDate a.announcement_date = some d →
      parseDate c.filterDateTo = some t →
      (matchesDateTo c a = true ↔ d ≤ t)) ∧
    (∀ a : Announcement, a.announcement_date = "2024-02-01" →
      announcementMatches scenarioECriteria a = false) ∧
    (∀ a : Announcement, a.announcement_date = "2024-01-15" →
      announcementMatches scenarioECriteria a = true) := by
  refine ⟨?_, ?_, ?_, ?_⟩
  · intro c a d f hne hpa hpf
    have hb : (c.filterDateFrom == "") = false := by
      simpa using hne
    rw [matchesDateFrom, hpa, hpf, hb]
    simp
  · intro c a d t hne hpa hpt
    have hb : (c.filterDateTo == "") = false := by
      simpa using hne
    rw [matchesDateTo, hpa, hpt, hb]
    simp
  · intro a ha
    have hto : matchesDateTo scenarioECriteria a = false := by
      rw [matchesDateTo, ha]
      decide
    simp [announcementMatches, hto]
  · intro a ha
    have hfrom : matchesDateFrom scenarioECriteria a = true := by
      rw [matchesDateFrom, ha]
      decide
    have hto : matchesDateTo scenarioECriteria a = true := by
      rw [matchesDateTo, ha]
      decide
    have hse : matchesSearch scenarioECriteria a = true := by
      simp [matchesSearch, scenarioECriteria, defaultCriteria]
    have hty : matchesType scenarioECriteria a = true := by
      simp [matchesType, scenarioECriteria, defaultCriteria]
    have hlo : matchesLocation scenarioECriteria a = true := by
      simp [matchesLocation, scenarioECriteria, defaultCriteria]
    have hpr : matchesProduct scenarioECriteria a = true := by
      simp [matchesProduct, scenarioECriteria, defaultCriteria]
    have hst : matchesStatus scenarioECriteria a = true := by
      simp [matchesStatus, scenarioECriteria, defaultCriteria]
    have hco : matchesCompany scenarioECriteria a = true := by
      simp [matchesCompany, scenarioECriteria, defaultCriteria]
    simp [announcementMatches, hse, hty, hlo, hpr, hst, hfrom, hto, hco]

/-- Witness for C6 at concrete records. -/
theorem dateFilters_inclusive_and_scenarioE_witness :
    (matchesDateFrom scenarioECriteria annJan15 = true ↔ 20240101 ≤ 20240115) ∧
    (matchesDateTo scenarioECriteria annJan15 = true ↔ 20240115 ≤ 20240131) ∧
    announcementMatches scenarioECriteria annFeb01 = false ∧
    announcementMatches scenarioECriteria annJan15 = true :=
  ⟨dateFilters_inclusive_and_scenarioE.1 scenarioECriteria annJan15
      20240115 20240101 (by decide) (by decide) (by decide),
   dateFilters_inclusive_and_scenarioE.2.1 scenarioECriteria annJan15
      20240115 20240131 (by decide) (by decide) (by decide),
   dateFilters_inclusive_and_scenarioE.2.2.1 annFeb01 (by decide),
   dateFilters_inclusive_and_scenarioE.2.2.2 annJan15 (by decide)⟩

/-- First-occurrence deduplication with an accumulator of already-seen
elements; models iteration-order semantics of `Array.from(new Set(xs))`. -/
def dedupSeen (seen : List String) : List String → List String
  | [] => []
  | x :: xs =>
      if x ∈ seen then dedupSeen seen xs
      else x :: dedupSeen (x :: seen) xs

/-- Truthiness of a string, models `filter(Boolean)` on strings. -/
def nonEmptyStr (s : String) : Bool :=
  !(s == "")

/-- The comma-split whitespace-trimmed product tokens of one record. -/
def splitTrimTokens (a : Announcement) : List String :=
  (splitOnChar ',' a.products).map trimStr

/-- All product tokens of the store, in store order. -/
def allProductTokens : List Announcement → List String
  | [] => []
  | a :: rest => splitTrimTokens a ++ allProductTokens rest

/-- `uniqueTypes` of src/app/page.tsx. -/
def uniqueTypes (store : List Announcement) : List String :=
  (dedupSeen [] (store.map (fun a => a.announcement_type))).filter nonEmptyStr

/-- `uniqueLocations` of src/app/page.tsx. -/
def uniqueLocations (store : List Announcement) : List String :=
  (dedupSeen [] (store.map (fun a => a.location))).filter nonEmptyStr

/-- `uniqueProducts` of src/app/page.tsx: split, trim, dedup, then drop
falsy tokens. -/
def uniqueProducts (store : List Announcement) : List String :=
  (dedupSeen [] (allProductTokens store)).filter nonEmptyStr

/-- Filtering commutes with first-occurrence deduplication when the seen
accumulator is filtered alongside. -/
theorem filter_dedupSeen (p : String → Bool) :
    ∀ (l seen : List String),
    (dedupSeen seen l).filter p = dedupSeen (seen.filter p) (l.filter p) := by
  intro l
  induction l with
  | nil => intro seen; simp [dedupSeen]
  | cons x xs ih =>
    intro seen
    rw [dedupSeen]
    by_cases hx : x ∈ seen
    · rw [if_pos hx, List.filter_cons]
      by_cases hp : p x = true
      · have hx' : x ∈ seen.filter p := List.mem_filter.mpr ⟨hx, hp⟩
        rw [if_pos hp, dedupSeen, if_pos hx']
        exact ih seen
      · rw [if_neg hp]
        exact ih seen
    · rw [if_neg hx, List.filter_cons, List.filter_cons]
      by_cases hp : p x = true
      · have hx' : x ∉ seen.filter p := fun h => hx (List.mem_filter.mp h).1
        rw [if_pos hp, if_pos hp, dedupSeen, if_neg hx']
        have := ih (x :: seen)
        rw [List.filter_cons, if_pos hp] at this
        rw [this]
      · rw [if_neg hp, if_neg hp]
        have := ih (x :: seen)
        rw [List.filter_cons, if_neg hp] at this
        exact this

/-- Deduplication only keeps elements of the input list. -/
theorem mem_of_mem_dedupSeen :
    ∀ (l seen : List String) (x : String), x ∈ dedupSeen seen l → x ∈ l := by
  intro l
  induction l with
  | nil => intro seen x hx; simp [dedupSeen] at hx
  | cons y ys ih =>
    intro seen x hx
    rw [dedupSeen] at hx
    by_cases hy : y ∈ seen
    · rw [if_pos hy] at hx
      exact List.mem_cons_of_mem _ (ih seen x hx)
    · rw [if_neg hy] at hx
      rcases List.mem_cons.mp hx with h | h
      · exact h ▸ List.mem_cons_self _ _
      · exact List.mem_cons_of_mem _ (ih (y :: seen) x h)

/-- Every accumulated product token comes from some record of the store. -/
theorem mem_allProductTokens :
    ∀ (store : List Announcement) (s : String),
    s ∈ allProductTokens store → ∃ a, a ∈ store ∧ s ∈ splitTrimTokens a := by
  intro store
  induction store with
  | nil => intro s hs; simp [allProductTokens] at hs
  | cons a rest ih =>
    intro s hs
    rw [allProductTokens] at hs
    rcases List.mem_append.mp hs with h | h
    · exact ⟨a, List.mem_cons_self _ _, h⟩
    · obtain ⟨b, hb, hsb⟩ := ih s h
      exact ⟨b, List.mem_cons_of_mem _ hb, hsb⟩

/-- C4: the product facet list equals first-occurrence deduplication of the
non-empty split-and-trimmed tokens; it contains no empty token and every
entry is a trimmed comma segment of some record's products field; the type
and location facet lists also contain no empty entry. -/
theorem uniqueProducts_spec :
    ∀ store : List Announcement,
    uniqueProducts store =
      dedupSeen [] ((allProductTokens store).filter nonEmptyStr) ∧
    (∀ s, s ∈ uniqueProducts store →
      s ≠ "" ∧ ∃ a, a ∈ store ∧ s ∈ (splitOnChar ',' a.products).map trimStr) ∧
    (∀ s, s ∈ uniqueTypes store → s ≠ "") ∧
    (∀ s, s ∈ uniqueLocations store → s ≠ "") := by
  intro store
  refine ⟨?_, ?_, ?_, ?_⟩
  · rw [uniqueProducts, filter_dedupSeen]
    rfl
  · intro s hs
    obtain ⟨hmem, hne⟩ := List.mem_filter.mp hs
    refine ⟨by simpa [nonEmptyStr] using hne, ?_⟩
    exact mem_allProductTokens store s (mem_of_mem_dedupSeen _ _ _ hmem)
  · intro s hs
    have hne := (List.mem_filter.mp hs).2
    simpa [nonEmptyStr] using hne
  · intro s hs
    have hne := (List.mem_filter.mp hs).2
    simpa [nonEmptyStr] using hne

/-- Witness for C4 on a one-record store with products "Fruits, Bio". -/
theorem uniqueProducts_spec_witness :
    "Bio" ≠ "" ∧
    ∃ a, a ∈ [annJan15] ∧
      "Bio" ∈ (splitOnChar ',' a.products).map trimStr :=
  (uniqueProducts_spec [annJan15]).2.1 "Bio" (by decide)

/-- Doubles every double-quote character; models the global regex replace
applied to the description field in `exportToCSV`. -/
def escQChars : List Char → List Char
  | [] => []
  | c :: cs =>
      if c == '"' then '"' :: '"' :: escQChars cs
      else c :: escQChars cs

/-- String form of the quote-doubling replace. -/
def escQuotes (s : String) : String :=
  String.mk (escQChars s.data)

/-- The template-literal wrapping used by `exportToCSV`: quotes around the
field content, with no escaping of the content. -/
def quoteRaw (s : String) : String :=
  "\"" ++ s ++ "\""

/-- The quoting rule stated by the spec (§4.3): wrap in quotes after doubling
every embedded quote.  Kept separate from `quoteRaw` to compare the spec's
rule with the code's behaviour. -/
def quoteEscaped (s : String) : String :=
  "\"" ++ escQuotes s ++ "\""

/-- JS `x || ""` on an optional contact field. -/
def orEmpty (o : Option String) : String :=
  match o with
  | some s => s
  | none => ""

/-- The `csvHeaders` array of `exportToCSV`. -/
def csvHeaders : List String :=
  ["ID", "Company Name", "Title", "Description", "Type", "Location",
   "Products", "Date", "URL", "Status", "Scraped Date", "Prénom", "Adresse",
   "Code Postal", "Ville", "Mail", "Téléphone", "Web Site", "OK"]

/-- One row of `csvData` in `exportToCSV`; the numeric id is rendered as the
decimal string `Array.join` would produce. -/
def csvRow (a : Announcement) : List String :=
  [toString a.id,
   quoteRaw a.company_name,
   quoteRaw a.announcement_title,
   quoteRaw (escQuotes a.description),
   quoteRaw a.announcement_type,
   quoteRaw a.location,
   quoteRaw a.products,
   a.announcement_date,
   a.announcement_url,
   if a.checked = 1 then "Checked" else "Unchecked",
   a.scraped_date,
   quoteRaw (orEmpty a.prenom),
   quoteRaw (orEmpty a.adresse),
   quoteRaw (orEmpty a.cod_postal),
   quoteRaw (orEmpty a.ville),
   quoteRaw (orEmpty a.mail),
   quoteRaw (orEmpty a.tel),
   quoteRaw (orEmpty a.web_site),
   quoteRaw (orEmpty a.ok)]

/-- JS `Array.join(sep)` on a list of strings. -/
def joinSep (sep : String) : List String → String
  | [] => ""
  | [x] => x
  | x :: y :: ys => x ++ sep ++ joinSep sep (y :: ys)

/-- The line array built by `exportToCSV`: joined header first, then one
joined row per record of the Filtered View, in order. -/
def csvLines (view : List Announcement) : List String :=
  joinSep "," csvHeaders :: view.map (fun a => joinSep "," (csvRow a))

/-- The `csvContent` string of `exportToCSV`. -/
def csvContent (view : List Announcement) : String :=
  joinSep "\n" (csvLines view)

/-- A concrete record whose company name embeds a double quote. -/
def annQuoteDemo : Announcement :=
  { annJan15 with id := 3, company_name := "Agro \"Plus\"" }

/-- C2 counterexample: the company-name cell is not produced by the
quote-doubling rule the claim states — the embedded quote is left undoubled. -/
theorem csvRow_company_not_escaped :
    (csvRow annQuoteDemo)[1]? ≠ some (quoteEscaped annQuoteDemo.company_name) := by
  decide

/-- C2 amended: every textual field is wrapped in double quotes with its
content verbatim, except the description whose embedded quotes are doubled;
id, date, URL and scraped date are unquoted; the checked flag renders as
"Checked"/"Unchecked"; absent contact fields render as the empty string.
Strings without a double quote pass through the doubling replace unchanged. -/
theorem csvRow_cells :
    (∀ a : Announcement,
      (csvRow a)[0]? = some (toString a.id) ∧
      (csvRow a)[1]? = some ("\"" ++ a.company_name ++ "\"") ∧
      (csvRow a)[2]? = some ("\"" ++ a.announcement_title ++ "\"") ∧
      (csvRow a)[3]? = some ("\"" ++ escQuotes a.description ++ "\"") ∧
      (csvRow a)[4]? = some ("\"" ++ a.announcement_type ++ "\"") ∧
      (csvRow a)[5]? = some ("\"" ++ a.location ++ "\"") ∧
      (csvRow a)[6]? = some ("\"" ++ a.products ++ "\"") ∧
      (csvRow a)[7]? = some a.announcement_date ∧
      (csvRow a)[8]? = some a.announcement_url ∧
      (csvRow a)[9]? = some (if a.checked = 1 then "Checked" else "Unchecked") ∧
      (csvRow a)[10]? = some a.scraped_date ∧
      (csvRow a)[11]? = some ("\"" ++ orEmpty a.prenom ++ "\"") ∧
      (csvRow a)[12]? = some ("\"" ++ orEmpty a.adresse ++ "\"") ∧
      (csvRow a)[13]? = some ("\"" ++ orEmpty a.cod_postal ++ "\"") ∧
      (csvRow a)[14]? = some ("\"" ++ orEmpty a.ville ++ "\"") ∧
      (csvRow a)[15]? = some ("\"" ++ orEmpty a.mail ++ "\"") ∧
      (csvRow a)[16]? = some ("\"" ++ orEmpty a.tel ++ "\"") ∧
      (csvRow a)[17]? = some ("\"" ++ orEmpty a.web_site ++ "\"") ∧
      (csvRow a)[18]? = some ("\"" ++ orEmpty a.ok ++ "\"")) ∧
    (∀ s : String, s.data.all (fun c => !(c == '"')) = true →
      escQuotes s = s) ∧
    escQuotes "a\"b" = "a\"\"b" := by
  refine ⟨?_, ?_, by decide⟩
  · intro a
    repeat' constructor
  · intro s hs
    have h : ∀ l : List Char, l.all (fun c => !(c == '"')) = true →
        escQChars l = l := by
      intro l
      induction l with
      | nil => intro _; rfl
      | cons c cs ih =>
        intro hl
        rw [List.all_cons, Bool.and_eq_true] at hl
        rw [escQChars, if_neg (by simpa using hl.1)]
        rw [ih hl.2]
    show String.mk (escQChars s.data) = s
    rw [h s.data hs]

/-- Witness for C2 amended at a quote-free string. -/
theorem csvRow_cells_witness : escQuotes "abc" = "abc" :=
  csvRow_cells.2.1 "abc" (by decide)

/-- C3 counterexample: the header row does not have 18 columns. -/
theorem csvHeaders_not_18 : ¬ (csvHeaders.length = 18) := by
  decide

/-- C3 amended: the header row has 19 named columns, every data row has 19
cells, and the payload is the joined header line followed by exactly one
joined row per record of the Filtered View, in the view's order. -/
theorem csvContent_structure :
    csvHeaders.length = 19 ∧
    (∀ a : Announcement, (csvRow a).length = 19) ∧
    ∀ view : List Announcement,
      (csvLines view).length = view.length + 1 ∧
      (csvLines view).head? = some (joinSep "," csvHeaders) ∧
      List.drop 1 (csvLines view) =
        view.map (fun a => joinSep "," (csvRow a)) ∧
      csvContent view = joinSep "\n" (csvLines view) := by
  refine ⟨rfl, fun a => rfl, ?_⟩
  intro view
  refine ⟨?_, rfl, rfl, rfl⟩
  simp [csvLines]

/-- The `Stats` interface of src/app/page.tsx. -/
structure Stats where
  total : Nat
  checked : Nat
  unchecked : Nat
  today : Nat
deriving DecidableEq, Repr

/-- Outcome of one awaited fetch: a parsed response body or a thrown
network/transport error caught by the surrounding try/catch. -/
inductive FetchOutcome (α : Type) where
  | ok : α → FetchOutcome α
  | err : FetchOutcome α

/-- State transition of `fetchAnnouncements`: `ok (some l)` is an array body,
`ok none` a non-array body (fails the `Array.isArray` guard), `err` a caught
fetch/parse failure. -/
def fetchAnnouncementsUpdate (_prev : List Announcement)
    (r : FetchOutcome (Option (List Announcement))) : List Announcement :=
  match r with
  | .ok (some l) => l
  | .ok none => []
  | .err => []

/-- State transition of `fetchStats`: the catch branch only logs, leaving the
previous stats in place. -/
def fetchStatsUpdate (prev : Stats) (r : FetchOutcome Stats) : Stats :=
  match r with
  | .ok s => s
  | .err => prev

/-- The all-zero stats value of the useState initialiser. -/
def zeroStats : Stats :=
  ⟨0, 0, 0, 0⟩

/-- C7 counterexample: a failed stats fetch leaves the previous snapshot in
place instead of resetting it to an empty result. -/
theorem fetchStatsUpdate_err_not_reset :
    ¬ (fetchStatsUpdate ⟨5, 2, 3, 1⟩ FetchOutcome.err = zeroStats) := by
  decide

/-- C7 amended: a failed or non-array announcements fetch resets the record
store to empty (an array body replaces it), while a failed stats fetch
leaves the stats snapshot unchanged. -/
theorem fetchUpdates_spec :
    (∀ prev : List Announcement,
      fetchAnnouncementsUpdate prev FetchOutcome.err = []) ∧
    (∀ prev : List Announcement,
      fetchAnnouncementsUpdate prev (FetchOutcome.ok none) = []) ∧
    (∀ (prev l : List Announcement),
      fetchAnnouncementsUpdate prev (FetchOutcome.ok (some l)) = l) ∧
    (∀ prev : Stats, fetchStatsUpdate prev FetchOutcome.err = prev) :=
  ⟨fun _ => rfl, fun _ => rfl, fun _ _ => rfl, fun _ => rfl⟩

/-- The `/api/scrape/status` response body. -/
structure ScrapeStatus where
  running : Bool
  message : String
deriving DecidableEq, Repr

/-- Monitor-side state: the `scraping` flag and whether the polling interval
timer is installed (`statusCheckInterval` non-null). -/
structure MonitorState where
  scraping : Bool
  timerActive : Bool
deriving DecidableEq, Repr

/-- Observable side effects of one monitor event: timer cancellation, data
refreshes and the alert shown. -/
structure MonitorEffects where
  cancelTimer : Bool
  refreshAnn : Bool
  refreshStats : Bool
  alertMessage : Option String
deriving DecidableEq, Repr

/-- No side effects. -/
def noEffects : MonitorEffects :=
  ⟨false, false, false, none⟩

/-- The polling interval, in milliseconds, passed to `setInterval`. -/
def pollIntervalMs : Nat := 2000

/-- One tick of the `setInterval` callback in `startScraping`: if the status
reports the job still running nothing happens; otherwise the timer is
cleared, scraping is set false, both refreshes run and the completion
message is alerted. -/
def pollStep (st : ScrapeStatus) (s : MonitorState) :
    MonitorState × MonitorEffects :=
  if st.running then (s, noEffects)
  else (⟨false, false⟩,
    ⟨true, true, true,
     some (st.message ++ "\n\nPage will refresh to show new results!")⟩)

/-- `stopScraping`: clear the timer if installed, set scraping false, refresh
both, and alert — without consulting the backend. -/
def stopStep (s : MonitorState) : MonitorState × MonitorEffects :=
  (⟨false, false⟩,
   ⟨s.timerActive, true, true,
    some "Scraping stopped! Showing results scraped so far."⟩)

/-- Folding a sequence of poll responses through the monitor. -/
def runPolls : List ScrapeStatus → MonitorState → MonitorState
  | [], s => s
  | st :: rest, s => runPolls rest (pollStep st s).1

/-- C8: the monitor polls on a 2000 ms interval; a poll reporting the job
finished cancels the timer, leaves the running state, refreshes both stores
and surfaces the completion message; a manual stop cancels the installed
timer, goes idle and still refreshes; and any sequence of polls that all
report the job running changes nothing, so polling continues indefinitely. -/
theorem scrapeMonitor_transitions :
    pollIntervalMs = 2000 ∧
    (∀ (st : ScrapeStatus) (s : MonitorState), st.running = false →
      (pollStep st s).1 = ⟨false, false⟩ ∧
      (pollStep st s).2.cancelTimer = true ∧
      (pollStep st s).2.refreshAnn = true ∧
      (pollStep st s).2.refreshStats = true ∧
      (pollStep st s).2.alertMessage =
        some (st.message ++ "\n\nPage will refresh to show new results!")) ∧
    (∀ s : MonitorState,
      (stopStep s).1 = ⟨false, false⟩ ∧
      (stopStep s).2.cancelTimer = s.timerActive ∧
      (stopStep s).2.refreshAnn = true ∧
      (stopStep s).2.refreshStats = true) ∧
    (∀ (st : ScrapeStatus) (s : MonitorState), st.running = true →
      pollStep st s = (s, noEffects)) ∧
    (∀ (l : List ScrapeStatus) (s : MonitorState),
      (∀ st ∈ l, st.running = true) → runPolls l s = s) := by
  refine ⟨rfl, ?_, ?_, ?_, ?_⟩
  · intro st s hr
    rw [pollStep, hr]
    exact ⟨rfl, rfl, rfl, rfl, rfl⟩
  · intro s
    exact ⟨rfl, rfl, rfl, rfl⟩
  · intro st s hr
    rw [pollStep, hr]
    rfl
  · intro l
    induction l with
    | nil => intro s _; rfl
    | cons st rest ih =>
      intro s hall
      rw [runPolls, pollStep, hall st (List.mem_cons_self _ _)]
      exact ih s (fun x hx => hall x (List.mem_cons_of_mem _ hx))

/-- Witness for C8 at concrete statuses and states. -/
theorem scrapeMonitor_transitions_witness :
    (pollStep ⟨false, "Done"⟩ ⟨true, true⟩).1 = ⟨false, false⟩ ∧
    pollStep ⟨true, "busy"⟩ ⟨true, true⟩ = (⟨true, true⟩, noEffects) ∧
    runPolls [⟨true, "busy"⟩, ⟨true, "busy"⟩] ⟨true, true⟩ = ⟨true, true⟩ :=
  ⟨(scrapeMonitor_transitions.2.1 ⟨false, "Done"⟩ ⟨true, true⟩ rfl).1,
   scrapeMonitor_transitions.2.2.2.1 ⟨true, "busy"⟩ ⟨true, true⟩ rfl,
   scrapeMonitor_transitions.2.2.2.2 [⟨true, "busy"⟩, ⟨true, "busy"⟩]
     ⟨true, true⟩ (by decide)⟩

/-- `currentChecked === 1 ? 0 : 1` in `toggleCheck`. -/
def newCheckedOf (currentChecked : Nat) : Nat :=
  if currentChecked = 1 then 0 else 1

/-- The per-record callback of the `map` in `toggleCheck`. -/
def toggleOne (id currentChecked : Nat) (a : Announcement) : Announcement :=
  if a.id = id then { a with checked := newCheckedOf currentChecked } else a

/-- The local state update performed by `toggleCheck`. -/
def toggleCheck (anns : List Announcement) (id currentChecked : Nat) :
    List Announcement :=
  anns.map (toggleOne id currentChecked)

/-- C9: `toggleCheck` preserves length and order, rewrites exactly the
`checked` field of records with the given id to the toggled value, leaves
every other record and every other field unchanged, fixes the store when no
record matches, and the toggle is an involution on values in 0/1. -/
theorem toggleCheck_spec :
    ∀ (anns : List Announcement) (id cur : Nat),
    (toggleCheck anns id cur).length = anns.length ∧
    (∀ i : Nat, (toggleCheck anns id cur)[i]? =
      (anns[i]?).map (toggleOne id cur)) ∧
    (∀ a : Announcement, toggleOne id cur a =
      { a with checked := if a.id = id then newCheckedOf cur else a.checked }) ∧
    ((∀ a ∈ anns, a.id ≠ id) → toggleCheck anns id cur = anns) ∧
    (∀ c : Nat, c = 0 ∨ c = 1 → newCheckedOf (newCheckedOf c) = c) := by
  intro anns id cur
  refine ⟨List.length_map _ _, fun i => List.getElem?_map .., ?_, ?_, ?_⟩
  · intro a
    by_cases h : a.id = id
    · rw [toggleOne, if_pos h, if_pos h]
    · rw [toggleOne, if_neg h, if_neg h]
  · intro h
    have hall : ∀ a ∈ anns, toggleOne id cur a = a := by
      intro a ha
      rw [toggleOne, if_neg (h a ha)]
    have := List.map_congr_left (g := fun a => a) hall
    simpa using this
  · intro c hc
    rcases hc with rfl | rfl <;> rfl

/-- Witness for C9 on a two-record store where no record has the given id. -/
theorem toggleCheck_spec_witness :
    toggleCheck [annJan15, annFeb01] 99 1 = [annJan15, annFeb01] ∧
    newCheckedOf (newCheckedOf 1) = 1 :=
  ⟨(toggleCheck_spec [annJan15, annFeb01] 99 1).2.2.2.1 (by decide),
   (toggleCheck_spec [annJan15, annFeb01] 99 1).2.2.2.2 1 (Or.inr rfl)⟩

/-- The `contactForm` state object. -/
structure ContactForm where
  prenom : String
  adresse : String
  cod_postal : String
  ville : String
  mail : String
  tel : String
  web_site : String
  ok : String
deriving DecidableEq, Repr

/-- The all-empty contact form of the useState initialiser and the resets. -/
def emptyContactForm : ContactForm :=
  ⟨"", "", "", "", "", "", "", ""⟩

/-- The object spread `... a, ...contactForm`: every contact sub-field is
overwritten with the form's (defined) string value. -/
def applyContactForm (f : ContactForm) (a : Announcement) : Announcement :=
  { a with
      prenom := some f.prenom, adresse := some f.adresse,
      cod_postal := some f.cod_postal, ville := some f.ville,
      mail := some f.mail, tel := some f.tel,
      web_site := some f.web_site, ok := some f.ok }

/-- The page state touched by `saveContactInfo`. -/
structure PageState where
  announcements : List Announcement
  editingContact : Option Nat
  contactForm : ContactForm

/-- The local state update performed by a successful `saveContactInfo`:
patch the matching record with the form, close the editor, clear the form. -/
def saveContactInfo (st : PageState) (id : Nat) : PageState :=
  { announcements := st.announcements.map
      (fun a => if a.id = id then applyContactForm st.contactForm a else a),
    editingContact := none,
    contactForm := emptyContactForm }

/-- C10: `saveContactInfo` preserves store length and order, replaces exactly
the 8 contact sub-fields of records with the given id by the form's values,
leaves all other fields and all other records unchanged, and resets the
editing state and every contact-form field to the empty string. -/
theorem saveContactInfo_spec :
    (∀ (st : PageState) (id : Nat),
      (saveContactInfo st id).announcements.length =
        st.announcements.length ∧
      (∀ i : Nat, (saveContactInfo st id).announcements[i]? =
        (st.announcements[i]?).map
          (fun a => if a.id = id then applyContactForm st.contactForm a
            else a)) ∧
      (∀ a : Announcement, a.id ≠ id →
        (if a.id = id then applyContactForm st.contactForm a else a) = a) ∧
      (saveContactInfo st id).editingContact = none ∧
      (saveContactInfo st id).contactForm = emptyContactForm) ∧
    (∀ (f : ContactForm) (a : Announcement),
      (applyContactForm f a).id = a.id ∧
      (applyContactForm f a).member_id = a.member_id ∧
      (applyContactForm f a).company_name = a.company_name ∧
      (applyContactForm f a).announcement_title = a.announcement_title ∧
      (applyContactForm f a).description = a.description ∧
      (applyContactForm f a).products = a.products ∧
      (applyContactForm f a).location = a.location ∧
      (applyContactForm f a).announcement_type = a.announcement_type ∧
      (applyContactForm f a).announcement_date = a.announcement_date ∧
      (applyContactForm f a).announcement_url = a.announcement_url ∧
      (applyContactForm f a).scraped_date = a.scraped_date ∧
      (applyContactForm f a).checked = a.checked ∧
      (applyContactForm f a).created_at = a.created_at ∧
      (applyContactForm f a).prenom = some f.prenom ∧
      (applyContactForm f a).adresse = some f.adresse ∧
      (applyContactForm f a).cod_postal = some f.cod_postal ∧
      (applyContactForm f a).ville = some f.ville ∧
      (applyContactForm f a).mail = some f.mail ∧
      (applyContactForm f a).tel = some f.tel ∧
      (applyContactForm f a).web_site = some f.web_site ∧
      (applyContactForm f a).ok = some f.ok) ∧
    (emptyContactForm.prenom = "" ∧ emptyContactForm.adresse = "" ∧
     emptyContactForm.cod_postal = "" ∧ emptyContactForm.ville = "" ∧
     emptyContactForm.mail = "" ∧ emptyContactForm.tel = "" ∧
     emptyContactForm.web_site = "" ∧ emptyContactForm.ok = "") := by
  refine ⟨?_, ?_, ?_⟩
  · intro st id
    refine ⟨List.length_map _ _, fun i => List.getElem?_map .., ?_, rfl, rfl⟩
    intro a ha
    rw [if_neg ha]
  · intro f a
    repeat' constructor
  · repeat' constructor

/-- Witness for C10: a record with a different id is untouched. -/
theorem saveContactInfo_spec_witness :
    (if annJan15.id = 99 then
      applyContactForm emptyContactForm annJan15 else annJan15) = annJan15 :=
  (saveContactInfo_spec.1 ⟨[annJan15], some 99, emptyContactForm⟩ 99).2.2.1
    annJan15 (by decide)
